import Mathlib

/-!
Verification of the plugin base class of the Massdrop-Reddit-Bot repository
(`core/baseclass.py`), a shallow embedding of its credential-refresh logic,
message dispatch loop, ban-command processing, content classification and
update registration, together with theorems settling the specification's
claims about them.
-/

namespace MassdropBot

/-! ### Ban-command grammar (`RE_BANMSG`, baseclass.py line 82)

`self.RE_BANMSG = re.compile(r'ban /([r|u])/([\d\w_]*)', re.UNICODE)`.
The character class `[r|u]` matches `r`, `|` or `u`; the group `([\d\w_]*)`
matches zero or more word characters; the pattern is compiled without
`re.IGNORECASE`, so matching is case-sensitive.  `.search` finds the
leftmost match anywhere in the text. -/

/-- A character matched by the regex class `[\d\w_]` (ASCII word characters). -/
def isWordChar (c : Char) : Bool := c.isAlphanum || c = '_'

/-- Attempt to match `ban /([r|u])/([\d\w_]*)` at the start of the text,
returning the two captured groups.  The second group is greedy, taking the
longest run of word characters. -/
def banMatchAt : List Char → Option (Char × List Char)
  | 'b' :: 'a' :: 'n' :: ' ' :: '/' :: c :: '/' :: rest =>
    if c = 'r' || c = '|' || c = 'u' then some (c, rest.takeWhile isWordChar) else none
  | _ => none

/-- `RE_BANMSG.search(text).groups()`: the leftmost match of
`ban /([r|u])/([\d\w_]*)` anywhere in the text, `none` when there is no
match. -/
def banSearch : List Char → Option (Char × List Char)
  | [] => none
  | c :: rest =>
    match banMatchAt (c :: rest) with
    | some r => some r
    | none => banSearch rest

/-! ### String helpers used by `standard_ban_procedure` -/

/-- Python `str.lower()` on the ASCII identifiers handled here. -/
def lowerStr (s : List Char) : List Char := s.map Char.toLower

/-- Python's substring test `needle in hay`. -/
def containsSub (needle : List Char) : List Char → Bool
  | [] => needle.isEmpty
  | c :: rest => needle.isPrefixOf (c :: rest) || containsSub needle rest

/-! ### Messages and the ban procedure (`standard_ban_procedure`, lines 202-240) -/

/-- An inbound private message as read by `standard_ban_procedure`:
`author` is `message.author.name` when the message has an author,
`subredditName` is `message.subreddit.display_name`, `wasComment` is
`message.was_comment` and `body` is `message.body`. -/
structure Message where
  author : Option (List Char)
  subredditName : List Char
  wasComment : Bool
  body : List Char
deriving DecidableEq

/-- The acting principal's lowercased identifier: the author's name when the
message has an author, otherwise the subreddit's display name
(baseclass.py lines 214-217). -/
def principalId (msg : Message) : List Char :=
  match msg.author with
  | some a => lowerStr a
  | none => lowerStr msg.subredditName

/-- An observable side effect of `standard_ban_procedure`: a database write
(`add_userban_per_module` / `add_subreddit_ban_per_module`) or a reply to
the message. -/
inductive BanEffect
  | userBan (user bot : List Char)
  | subredditBan (sub bot : List Char)
  | reply (text : List Char)
deriving DecidableEq

/-- The confirmation text sent after a user ban (lines 230-232). -/
def userReplyText (user bot : List Char) : List Char :=
  "Successfully banned /u/".toList ++ user ++ " from ".toList ++ bot ++
    ". The bot should ignore you from now on.\n\nHave a nice day!".toList

/-- The confirmation text sent after a subreddit ban (lines 237-239). -/
def subredditReplyText (sub bot : List Char) : List Char :=
  "Successfully banned /r/".toList ++ sub ++ " from ".toList ++ bot ++
    ". The bot should ignore this subreddit from now on.\n\nHave a nice day!".toList

/-- `standard_ban_procedure(message, subreddit_banning_allowed,
user_banning_allowed)` (lines 202-240), returning the list of side effects
it performs, in order.  `human` is true when the message has an author;
the pre-filter requires a top-level message whose lowercased body contains
the principal's lowercased identifier; the regex result is then checked for
type consistency and identity before any write happens. -/
def standardBanProcedure (bot : List Char) (msg : Message)
    (subredditBanningAllowed userBanningAllowed : Bool) : List BanEffect :=
  let author := principalId msg
  let human := msg.author.isSome
  if !msg.wasComment && containsSub author (lowerStr msg.body) then
    match banSearch msg.body with
    | some (x, y) =>
      let typeConsistency := (x.toLower == 'r' && !human) || (x.toLower == 'u' && human)
      if author == lowerStr y && typeConsistency then
        if human && userBanningAllowed then
          let a := msg.author.getD []
          [.userBan a bot, .reply (userReplyText a bot)]
        else if subredditBanningAllowed then
          [.subredditBan msg.subredditName bot, .reply (subredditReplyText msg.subredditName bot)]
        else []
      else []
    | none => []
  else []

/-! ### Content classification (`__test_single_thing`, lines 242-255) -/

/-- A fetched content item as inspected by `__test_single_thing`:
`isSubmission` is `type(thing) is praw.objects.Submission`, `isSelf` is
`thing.is_self`, `selftext` is `thing.selftext` (empty models the falsy
empty string). -/
structure Thing where
  isSubmission : Bool
  isSelf : Bool
  selftext : List Char
deriving DecidableEq

/-- The four plugin handlers a content item can be dispatched to. -/
inductive Handler
  | submission
  | titlepost
  | link
  | comment
deriving DecidableEq

/-- The dispatch decision of `__test_single_thing` (lines 247-255): a
submission with `is_self` and truthy (non-empty) `selftext` goes to
`execute_submission`, a self submission with empty body to
`execute_titlepost`, a non-self submission to `execute_link`, and anything
that is not a submission to `execute_comment`. -/
def testSingleThing (t : Thing) : Handler :=
  if t.isSubmission then
    if t.isSelf && !t.selftext.isEmpty then .submission
    else if t.isSelf then .titlepost
    else .link
  else .comment

/-! ### Update registration (`to_update`, lines 265-279) -/

/-- A posted item handed to `to_update`: a PRAW submission or comment,
carrying its fullname. -/
inductive RedditThing
  | submission (fullname : List Char)
  | comment (fullname : List Char)
deriving DecidableEq

/-- The outcome of a `to_update` call: an error logged because no database
connection exists, a row written through `insert_into_update`, or the
`TypeError` Python raises for the one-argument call
`isinstance(praw.objects.Comment)` on line 276. -/
inductive UpdateOutcome
  | loggedNoDatabase
  | inserted (fullname bot : List Char) (lifetime : Nat)
  | typeError
deriving DecidableEq

/-- `to_update(response_object, lifetime)` (lines 265-279).  With no
database it only logs.  Otherwise the guard is
`isinstance(response_object, praw.objects.Submission) or
isinstance(praw.objects.Comment)`: for a submission the first test is true
and the row is inserted; for anything else Python evaluates the second,
one-argument `isinstance` call, which raises `TypeError`. -/
def toUpdate (hasDatabase : Bool) (bot : List Char) (obj : RedditThing)
    (lifetime : Nat) : UpdateOutcome :=
  if !hasDatabase then .loggedNoDatabase
  else
    match obj with
    | .submission fn => .inserted fn bot lifetime
    | .comment _ => .typeError

/-! ### Credential state and `_oa_refresh` (lines 76-77 and 171-179)

`__init__` sets `OA_TOKEN_DURATION = 3540`; `OA_ACCESS_TOKEN` and
`OA_VALID_UNTIL` do not exist until the first successful refresh assigns
them.  `_oa_refresh(force)` asserts that a refresh token and a session are
present, and refreshes when `force or time() > self.OA_VALID_UNTIL`. -/

/-- The token-duration constant assigned in `__init__` (line 77). -/
def initTokenDuration : Nat := 3540

/-- The credential state of a plugin: `accessToken` and `validUntil` are
`none` while the corresponding attributes are still unset, `refreshToken`
is `none` when `OA_REFRESH_TOKEN` is missing or falsy, and `hasSession`
records whether `self.session` is truthy. -/
structure OAuthState where
  accessToken : Option (List Char)
  validUntil : Option Nat
  tokenDuration : Nat
  refreshToken : Option (List Char)
  hasSession : Bool
deriving DecidableEq

/-- A Python exception escaping the modelled methods: the failed assert at
line 173, the `AttributeError` from reading an unset `OA_VALID_UNTIL`, or a
`praw.errors.HTTPException` from the platform call. -/
inductive PyError
  | assertionError
  | attributeError
  | httpException
deriving DecidableEq

/-- One invocation of `_oa_refresh(force)` (lines 171-179) at instant
`now`, where `newToken` is the access token the platform would return and
`netOk` tells whether the `refresh_access_information` network call
succeeds (`false` models an `HTTPException` that survives the bounded
`@retry(HTTPException)` re-invocations, which re-run this same function
unchanged).  Returns the new state paired with the number of token-refresh
network calls performed. -/
def oaRefreshOnce (st : OAuthState) (force : Bool) (now : Nat)
    (newToken : List Char) (netOk : Bool) : Except PyError (OAuthState × Nat) :=
  if st.refreshToken.isNone || !st.hasSession then .error .assertionError
  else
    match (if force then Except.ok true
           else
             match st.validUntil with
             | none => Except.error PyError.attributeError
             | some v => Except.ok (decide (now > v)) : Except PyError Bool) with
    | .error e => .error e
    | .ok cond =>
      if cond then
        if netOk then
          .ok ({ st with accessToken := some newToken,
                         validUntil := some (now + st.tokenDuration) }, 1)
        else .error .httpException
      else .ok (st, 0)

/-! ### Recovery escalation (`oa_refresh`, lines 181-187, and
`factory_reddit`, lines 131-139)

`oa_refresh(force)` calls `_oa_refresh(force)`; on `HTTPException` it calls
`factory_reddit()` and then `_oa_refresh(force)` again, outside any further
handler.  `factory_reddit()` rebuilds the session and ends with
`self.oa_refresh(force=True)` — the two functions are mutually recursive.
The model abstracts each complete `_oa_refresh` invocation into one
consultation of an oracle `outcomes : Nat → Bool` (`true` = it returned,
possibly without a network call; `false` = it raised `HTTPException`), and
bounds the nesting depth by explicit fuel. -/

/-- The result of running `oa_refresh` with bounded nesting depth:
it returned normally, it raised `HTTPException` to its caller, or the
mutual recursion with `factory_reddit` was still running when the fuel ran
out. -/
inductive RefreshRun
  | ok (next : Nat)
  | raised (next : Nat)
  | outOfFuel
deriving DecidableEq

/-- `oa_refresh` (lines 181-187) under the outcome oracle: attempt
`_oa_refresh` (outcome `outcomes k`); on failure run `factory_reddit`,
which recursively runs `oa_refresh(force=True)` on the rebuilt session,
and if that returns normally retry `_oa_refresh` once more, propagating a
failure of that retry to the caller.  `fuel` bounds the depth of the
mutual recursion; `k` indexes the next oracle outcome to consume. -/
def oaRefreshRec (outcomes : Nat → Bool) : Nat → Nat → RefreshRun
  | 0, _ => .outOfFuel
  | fuel + 1, k =>
    if outcomes k then .ok (k + 1)
    else
      match oaRefreshRec outcomes fuel (k + 1) with
      | .ok next => if outcomes next then .ok (next + 1) else .raised (next + 1)
      | .raised next => .raised next
      | .outOfFuel => .outOfFuel

/-! ### The message dispatch loop (`get_unread_messages`, lines 189-200)

`get_unread_messages` calls `self.oa_refresh()`, then inside a
`try/except AssertionError: pass` block fetches `self.session.get_unread()`
and for each message calls `msg.mark_as_read()` followed by
`self.on_new_message(msg)`.  The model records the completed actions as an
event trace; `AssertionError`s are injected through `fetched = none`
(fetch raised), `markOk` and `handlerOk`. -/

/-- A completed action of one `get_unread_messages` poll cycle. -/
inductive DispatchEvent
  | refreshCredentials
  | fetchUnread
  | markRead (m : Message)
  | onNewMessage (m : Message)
deriving DecidableEq

/-- The `for msg in msgs` loop (lines 196-198): mark each message read,
then hand it to the plugin's `on_new_message`.  Returns the trace of
completed actions and whether an `AssertionError` was raised (aborting the
rest of the loop). -/
def unreadLoop (markOk handlerOk : Message → Bool) :
    List Message → List DispatchEvent × Bool
  | [] => ([], false)
  | m :: rest =>
    if !markOk m then ([], true)
    else if !handlerOk m then ([.markRead m], true)
    else
      let r := unreadLoop markOk handlerOk rest
      (.markRead m :: .onNewMessage m :: r.1, r.2)

/-- `get_unread_messages` (lines 189-200): refresh credentials, fetch the
unread messages, run the loop, and swallow any `AssertionError`
(`except AssertionError: pass`).  Returns the trace of completed actions
and whether an `AssertionError` was raised and swallowed; the method itself
always returns normally. -/
def getUnreadMessages (fetched : Option (List Message))
    (markOk handlerOk : Message → Bool) : List DispatchEvent × Bool :=
  match fetched with
  | none => ([.refreshCredentials], true)
  | some msgs =>
    let r := unreadLoop markOk handlerOk msgs
    (.refreshCredentials :: .fetchUnread :: r.1, r.2)

/-! ## Theorems -/

/-- C2: refuted as stated — when every `_oa_refresh` attempt raises
`HTTPException`, the mutual recursion `oa_refresh → factory_reddit →
oa_refresh(force=True)` never returns and never propagates the failure: no
fuel bound suffices, so the second failure is not surfaced after exactly
one rebuild and `oa_refresh` does not terminate. -/
theorem oaRefreshRec_allFail_diverges (fuel k : Nat) :
    oaRefreshRec (fun _ => false) fuel k = .outOfFuel := by
  induction fuel generalizing k with
  | zero => rfl
  | succ n ih => simp [oaRefreshRec, ih]

/-- C5: `__test_single_thing` dispatches every content item to exactly one
handler, decided by the is-submission/is-self and has-body-text
predicates: a non-submission goes to the comment handler, a self post with
non-empty body to the submission handler, a self post with empty body to
the title-only handler, and a non-self post to the link handler. -/
theorem testSingleThing_classifies (t : Thing) :
    (t.isSubmission = false → testSingleThing t = .comment) ∧
    (t.isSubmission = true → t.isSelf = true → t.selftext ≠ [] →
      testSingleThing t = .submission) ∧
    (t.isSubmission = true → t.isSelf = true → t.selftext = [] →
      testSingleThing t = .titlepost) ∧
    (t.isSubmission = true → t.isSelf = false → testSingleThing t = .link) := by
  obtain ⟨sub, self, text⟩ := t
  refine ⟨?_, ?_, ?_, ?_⟩ <;> intro h <;> simp_all [testSingleThing]

/-- Witness for C5: all four combinations on concrete content items. -/
theorem testSingleThing_classifies_witness :
    testSingleThing ⟨false, false, []⟩ = .comment ∧
    testSingleThing ⟨true, true, "hi".toList⟩ = .submission ∧
    testSingleThing ⟨true, true, []⟩ = .titlepost ∧
    testSingleThing ⟨true, false, "x".toList⟩ = .link :=
  ⟨(testSingleThing_classifies ⟨false, false, []⟩).1 rfl,
   (testSingleThing_classifies ⟨true, true, "hi".toList⟩).2.1 rfl rfl (by decide),
   (testSingleThing_classifies ⟨true, true, []⟩).2.2.1 rfl rfl rfl,
   (testSingleThing_classifies ⟨true, false, "x".toList⟩).2.2.2 rfl rfl⟩

/-- C7: refuted as stated — `RE_BANMSG` is compiled without `IGNORECASE`,
so `BAN /U/alice` does not match while `ban /u/alice` does; moreover the
class `[r|u]` also matches a literal `|`, and the group `([\d\w_]*)`
accepts an empty identifier. -/
theorem banSearch_not_case_insensitive :
    banSearch "BAN /U/alice".toList = none ∧
    banSearch "ban /u/alice".toList = some ('u', "alice".toList) ∧
    banSearch "ban /|/name".toList = some ('|', "name".toList) ∧
    banSearch "ban /u/".toList = some ('u', []) :=
  ⟨rfl, rfl, rfl, rfl⟩

/-- C7 (amended): the grammar is the case-sensitive pattern
`ban /([r|u])/([\d\w_]*)`: wherever the literal text `ban /` followed by
one of `r`, `|`, `u` and `/` occurs, the match extracts that character and
the longest (possibly empty) run of word characters after the slash. -/
theorem banSearch_grammar (c : Char) (rest : List Char)
    (hc : c = 'r' ∨ c = '|' ∨ c = 'u') :
    banSearch ('b' :: 'a' :: 'n' :: ' ' :: '/' :: c :: '/' :: rest)
      = some (c, rest.takeWhile isWordChar) := by
  have hcb : (c = 'r' || c = '|' || c = 'u') = true := by
    rcases hc with h | h | h <;> simp [h]
  simp [banSearch, banMatchAt, hcb]

/-- Witness for C7 (amended): the grammar theorem at `ban /u/alice`. -/
theorem banSearch_grammar_witness :
    ('u' = 'r' ∨ 'u' = '|' ∨ 'u' = 'u') ∧
    banSearch ('b' :: 'a' :: 'n' :: ' ' :: '/' :: 'u' :: '/' :: "alice".toList)
      = some ('u', "alice".toList.takeWhile isWordChar) :=
  ⟨Or.inr (Or.inr rfl),
   banSearch_grammar 'u' "alice".toList (Or.inr (Or.inr rfl))⟩

/-- C9: the code contradicts the claim for comments — with a database
present, `to_update` on a comment raises `TypeError` (the guard's second
test is the one-argument call `isinstance(praw.objects.Comment)`) instead
of recording the fullname; a submission is recorded, and with no database
only an error is logged. -/
theorem toUpdate_comment_raises :
    toUpdate true "LeafeatorBot".toList (.comment "t1_cuilwo5".toList) 1000
      = .typeError ∧
    toUpdate true "LeafeatorBot".toList (.submission "t3_3ik036".toList) 1000
      = .inserted "t3_3ik036".toList "LeafeatorBot".toList 1000 ∧
    toUpdate false "LeafeatorBot".toList (.comment "t1_cuilwo5".toList) 1000
      = .loggedNoDatabase :=
  ⟨rfl, rfl, rfl⟩

/-- C6: refuted by the code — for a human principal that passed both
checks, with `user_banning_allowed=False` but
`subreddit_banning_allowed=True`, the `elif subreddit_banning_allowed`
fallthrough records a subreddit ban (of the message's subreddit) and sends
the subreddit confirmation: disabling the user toggle makes the code
record a ban of the other type. -/
theorem banProcedure_crossTypeBan :
    standardBanProcedure "TestBot".toList
      ⟨some "alice".toList, "dota2".toList, false, "ban /u/alice".toList⟩
      true false
      = [.subredditBan "dota2".toList "TestBot".toList,
         .reply (subredditReplyText "dota2".toList "TestBot".toList)] :=
  rfl

/-- C4: refuted as stated — the refresh condition on line 174 is
`force or time() > self.OA_VALID_UNTIL` and never inspects whether an
access token is held: in a state holding no access token but a future
expiry, a non-forced `_oa_refresh` performs zero refresh calls and leaves
the state unchanged, although the claim's condition ("no access token is
held") demands a refresh. -/
theorem oaRefreshOnce_ignores_missing_token :
    OAuthState.accessToken ⟨none, some 100, 3540, some "rt".toList, true⟩ = none ∧
    oaRefreshOnce ⟨none, some 100, 3540, some "rt".toList, true⟩ false 50
        "tok".toList true
      = .ok (⟨none, some 100, 3540, some "rt".toList, true⟩, 0) :=
  ⟨rfl, rfl⟩

/-- C4 (amended): with a refresh token, a session and a stored expiry, a
`_oa_refresh` call performs a refresh exactly when `force` is true or the
current instant is past the stored expiry — with expiry in the future and
no force it performs zero refresh calls and leaves the credential state
unchanged, and with expiry in the past it performs exactly one, storing
the new token and expiry. -/
theorem oaRefreshOnce_trigger (st : OAuthState) (force : Bool) (now v : Nat)
    (tok : List Char) (hrt : st.refreshToken.isSome = true)
    (hs : st.hasSession = true) (hv : st.validUntil = some v) :
    (force = false → now ≤ v → oaRefreshOnce st force now tok true = .ok (st, 0)) ∧
    ((force = true ∨ now > v) →
      oaRefreshOnce st force now tok true
        = .ok ({ st with accessToken := some tok,
                         validUntil := some (now + st.tokenDuration) }, 1)) := by
  obtain ⟨rt, hrt'⟩ := Option.isSome_iff_exists.mp hrt
  constructor
  · intro hf hnow
    simp [oaRefreshOnce, hrt', hs, hv, hf, Nat.not_lt.mpr hnow]
  · intro hc
    rcases hc with hf | hnow
    · simp [oaRefreshOnce, hrt', hs, hf]
    · cases force <;> simp [oaRefreshOnce, hrt', hs, hv, hnow]

/-- Witness for C4 (amended): a state with expiry 100 at instant 50 is
left unchanged with zero refresh calls, and at instant 200 exactly one
refresh call stores the new token with expiry `200 + 3540`. -/
theorem oaRefreshOnce_trigger_witness :
    oaRefreshOnce ⟨some "old".toList, some 100, 3540, some "rt".toList, true⟩
        false 50 "tok".toList true
      = .ok (⟨some "old".toList, some 100, 3540, some "rt".toList, true⟩, 0) ∧
    oaRefreshOnce ⟨some "old".toList, some 100, 3540, some "rt".toList, true⟩
        false 200 "tok".toList true
      = .ok (⟨some "tok".toList, some (200 + 3540), 3540, some "rt".toList, true⟩, 1) :=
  ⟨(oaRefreshOnce_trigger ⟨some "old".toList, some 100, 3540, some "rt".toList, true⟩
      false 50 100 "tok".toList (by decide) rfl rfl).1 rfl (by decide),
   (oaRefreshOnce_trigger ⟨some "old".toList, some 100, 3540, some "rt".toList, true⟩
      false 200 100 "tok".toList (by decide) rfl rfl).2 (Or.inr (by decide))⟩

/-- C8: every `_oa_refresh` invocation that returns preserves the
credential invariant — the token duration is untouched, a run with zero
refresh calls leaves the whole state unchanged, a run with a refresh call
stores the new access token together with `expiry = now + tokenDuration`
(`now` being the instant of the successful refresh, and `3540` when the
duration still has its `__init__` default), and the (token, expiry) pair
changes only when a refresh call was performed; a failed network call
returns an error and produces no state at all. -/
theorem oaRefreshOnce_invariant (st st' : OAuthState) (force : Bool)
    (now n : Nat) (tok : List Char) (netOk : Bool)
    (h : oaRefreshOnce st force now tok netOk = .ok (st', n)) :
    st'.tokenDuration = st.tokenDuration ∧
    (n = 0 → st' = st) ∧
    (n ≠ 0 → n = 1 ∧ st'.accessToken = some tok ∧
      st'.validUntil = some (now + st.tokenDuration)) ∧
    (n = 1 → st.tokenDuration = initTokenDuration →
      st'.validUntil = some (now + 3540)) ∧
    ((st'.accessToken ≠ st.accessToken ∨ st'.validUntil ≠ st.validUntil) →
      n = 1) := by
  unfold oaRefreshOnce at h
  split at h
  · exact absurd h (by simp)
  · split at h
    · exact absurd h (by simp)
    · split at h
      · split at h
        · rw [Except.ok.injEq, Prod.mk.injEq] at h
          obtain ⟨hst, hn⟩ := h
          subst hst hn
          refine ⟨rfl, by simp, fun _ => ⟨rfl, rfl, rfl⟩, ?_, fun _ => rfl⟩
          intro _ hd
          simp [hd, initTokenDuration]
        · exact absurd h (by simp)
      · rw [Except.ok.injEq, Prod.mk.injEq] at h
        obtain ⟨hst, hn⟩ := h
        subst hst hn
        exact ⟨rfl, fun _ => rfl, by simp, by simp, by simp⟩

/-- Witness for C8: the invariant theorem applied to a concrete successful
refresh at instant 200 with the default duration. -/
theorem oaRefreshOnce_invariant_witness :
    OAuthState.tokenDuration
        ⟨some "tok".toList, some (200 + 3540), 3540, some "rt".toList, true⟩ = 3540 ∧
    OAuthState.validUntil
        ⟨some "tok".toList, some (200 + 3540), 3540, some "rt".toList, true⟩
      = some (200 + 3540) :=
  ⟨(oaRefreshOnce_invariant ⟨none, none, 3540, some "rt".toList, true⟩
      ⟨some "tok".toList, some (200 + 3540), 3540, some "rt".toList, true⟩
      true 200 1 "tok".toList true rfl).1,
   (oaRefreshOnce_invariant ⟨none, none, 3540, some "rt".toList, true⟩
      ⟨some "tok".toList, some (200 + 3540), 3540, some "rt".toList, true⟩
      true 200 1 "tok".toList true rfl).2.2.2.1 rfl rfl⟩

/-- Helper: the dispatch loop on a prefix of messages whose marking and
handling both succeed runs them all, marking each before handing it to the
plugin handler, and then continues with the rest of the list. -/
theorem unreadLoop_ok_prefix (markOk handlerOk : Message → Bool)
    (ok : List Message) (h : ∀ x ∈ ok, markOk x = true ∧ handlerOk x = true)
    (rest : List Message) :
    unreadLoop markOk handlerOk (ok ++ rest)
      = ((ok.flatMap fun m => [.markRead m, .onNewMessage m])
          ++ (unreadLoop markOk handlerOk rest).1,
         (unreadLoop markOk handlerOk rest).2) := by
  induction ok with
  | nil => simp
  | cons m t ih =>
    have hm := h m (by simp)
    have ht : ∀ x ∈ t, markOk x = true ∧ handlerOk x = true :=
      fun x hx => h x (by simp [hx])
    simp [unreadLoop, hm.1, hm.2, ih ht]

/-- C3: refuted as stated — `get_unread_messages` refreshes credentials,
fetches the unread messages and marks each read before dispatch, but it
routes every message to the plugin's generic `on_new_message` handler:
here a concrete message whose body matches the ban-command grammar is
still forwarded to the generic handler, and no ban processing occurs in
the dispatch loop. -/
theorem getUnreadMessages_forwards_ban_command :
    (banSearch (Message.body
        ⟨some "alice".toList, "dota2".toList, false, "ban /u/alice".toList⟩)).isSome
      = true ∧
    getUnreadMessages
        (some [⟨some "alice".toList, "dota2".toList, false, "ban /u/alice".toList⟩])
        (fun _ => true) (fun _ => true)
      = ([.refreshCredentials, .fetchUnread,
          .markRead ⟨some "alice".toList, "dota2".toList, false, "ban /u/alice".toList⟩,
          .onNewMessage ⟨some "alice".toList, "dota2".toList, false, "ban /u/alice".toList⟩],
         false) :=
  ⟨rfl, rfl⟩

/-- C3 (amended): on each poll cycle `get_unread_messages` first refreshes
the credentials, then fetches the unread messages, and for every message
marks it read before dispatching it; every message — whether or not it
matches the ban-command grammar — is forwarded unchanged to the plugin's
generic message handler, and the dispatcher itself performs no ban-command
processing. -/
theorem getUnreadMessages_marks_then_forwards (msgs : List Message) :
    getUnreadMessages (some msgs) (fun _ => true) (fun _ => true)
      = (.refreshCredentials :: .fetchUnread ::
          (msgs.flatMap fun m => [.markRead m, .onNewMessage m]), false) := by
  have h := unreadLoop_ok_prefix (fun _ => true) (fun _ => true) msgs
    (fun x _ => ⟨rfl, rfl⟩) []
  simp only [List.append_nil] at h
  simp [getUnreadMessages, h, unreadLoop]

/-- C10: an `AssertionError` raised while fetching the unread messages,
while marking a message read, or inside the plugin's own `on_new_message`
handler is swallowed by `get_unread_messages`, which returns normally with
the remaining messages of the cycle unprocessed. -/
theorem getUnreadMessages_swallows_assertion_errors
    (ok bad : List Message) (m : Message) (markOk handlerOk : Message → Bool)
    (hok : ∀ x ∈ ok, markOk x = true ∧ handlerOk x = true) :
    getUnreadMessages none markOk handlerOk = ([.refreshCredentials], true) ∧
    (markOk m = false →
      getUnreadMessages (some (ok ++ m :: bad)) markOk handlerOk
        = (.refreshCredentials :: .fetchUnread ::
            (ok.flatMap fun x => [.markRead x, .onNewMessage x]), true)) ∧
    (markOk m = true → handlerOk m = false →
      getUnreadMessages (some (ok ++ m :: bad)) markOk handlerOk
        = (.refreshCredentials :: .fetchUnread ::
            ((ok.flatMap fun x => [.markRead x, .onNewMessage x])
              ++ [.markRead m]), true)) := by
  have h := unreadLoop_ok_prefix markOk handlerOk ok hok (m :: bad)
  refine ⟨rfl, ?_, ?_⟩
  · intro hmark
    simp [getUnreadMessages, h, unreadLoop, hmark]
  · intro hmark hhandler
    simp [getUnreadMessages, h, unreadLoop, hmark, hhandler]

/-- Witness for C10: a concrete cycle of three messages where the plugin
handler raises on the second — the first is fully processed, the second is
marked read, the third is left untouched, and the method returns with the
assertion swallowed. -/
theorem getUnreadMessages_swallows_assertion_errors_witness :
    getUnreadMessages
        (some ([⟨none, "a".toList, true, []⟩]
          ++ ⟨none, "b".toList, false, []⟩ :: [⟨none, "c".toList, false, []⟩]))
        (fun _ => true) (fun x => x.wasComment)
      = (.refreshCredentials :: .fetchUnread ::
          (([⟨none, "a".toList, true, []⟩].flatMap
              fun x => [.markRead x, .onNewMessage x])
            ++ [.markRead ⟨none, "b".toList, false, []⟩]), true) :=
  (getUnreadMessages_swallows_assertion_errors
      [⟨none, "a".toList, true, []⟩] [⟨none, "c".toList, false, []⟩]
      ⟨none, "b".toList, false, []⟩ (fun _ => true) (fun x => x.wasComment)
      (by decide)).2.2 rfl rfl

/-- C1: whenever `standard_ban_procedure` performs any effect (a ban
record write or a reply), the message is not a comment reply, the acting
principal's lowercased identifier occurs in the lowercased body, the ban
pattern extracts a pair `(X, Y)` from the body, `X` is type-consistent
with the principal (`r` only for a community principal, `u` only for a
human author), and `Y` lowercased equals the principal's identifier; in
every other case the effect list is empty — no store write, no reply, and
no error response to the sender. -/
theorem standardBanProcedure_acts_only_when_authorized
    (bot : List Char) (msg : Message) (sb ub : Bool)
    (h : standardBanProcedure bot msg sb ub ≠ []) :
    msg.wasComment = false ∧
    containsSub (principalId msg) (lowerStr msg.body) = true ∧
    ∃ x y, banSearch msg.body = some (x, y) ∧
      lowerStr y = principalId msg ∧
      ((x.toLower = 'r' ∧ msg.author = none) ∨
       (x.toLower = 'u' ∧ msg.author ≠ none)) := by
  unfold standardBanProcedure at h
  split at h
  case h_2 => simp at h
  case h_1 o x y heq =>
    dsimp only at h
    split at h
    case isFalse => exact absurd rfl h
    case isTrue hpre =>
      rw [Bool.and_eq_true, Bool.not_eq_true'] at hpre
      obtain ⟨hwc, hcs⟩ := hpre
      refine ⟨hwc, hcs, x, y, heq, ?_⟩
      split at h
      case isFalse => exact absurd rfl h
      case isTrue hcond =>
        rw [Bool.and_eq_true, beq_iff_eq] at hcond
        obtain ⟨hid, htc⟩ := hcond
        rw [Bool.or_eq_true, Bool.and_eq_true, Bool.and_eq_true,
          Bool.not_eq_true'] at htc
        refine ⟨hid.symm, ?_⟩
        rcases htc with ⟨hr, hh⟩ | ⟨hu, hh⟩
        · exact Or.inl ⟨beq_iff_eq.mp hr,
            Option.not_isSome_iff_eq_none.mp (by simp [hh])⟩
        · exact Or.inr ⟨beq_iff_eq.mp hu,
            Option.ne_none_iff_isSome.mpr hh⟩

/-- Witness for C1: the authorization theorem applied to a message from
user `alice` with body `ban /u/alice`, on which the procedure acts. -/
theorem standardBanProcedure_acts_only_when_authorized_witness :
    Message.wasComment
        ⟨some "alice".toList, "dota2".toList, false, "ban /u/alice".toList⟩
      = false ∧
    containsSub
        (principalId
          ⟨some "alice".toList, "dota2".toList, false, "ban /u/alice".toList⟩)
        (lowerStr (Message.body
          ⟨some "alice".toList, "dota2".toList, false, "ban /u/alice".toList⟩))
      = true ∧
    ∃ x y,
      banSearch (Message.body
          ⟨some "alice".toList, "dota2".toList, false, "ban /u/alice".toList⟩)
        = some (x, y) ∧
      lowerStr y = principalId
        ⟨some "alice".toList, "dota2".toList, false, "ban /u/alice".toList⟩ ∧
      ((x.toLower = 'r' ∧
        Message.author
            ⟨some "alice".toList, "dota2".toList, false, "ban /u/alice".toList⟩
          = none) ∨
       (x.toLower = 'u' ∧
        Message.author
            ⟨some "alice".toList, "dota2".toList, false, "ban /u/alice".toList⟩
          ≠ none)) :=
  standardBanProcedure_acts_only_when_authorized "TestBot".toList
    ⟨some "alice".toList, "dota2".toList, false, "ban /u/alice".toList⟩
    true true (by decide)

end MassdropBot
